import Mathlib

/-!
Shallow embedding of the EduTutorAi quiz engine core
(`src/utils/quiz_parser.py` and `src/services/huggingface_service.py`).

Python strings are modelled as Lean `String`s, with the string methods the
source uses (`strip`, `split`, `replace`, `startswith`, `upper`, slicing)
re-implemented by structural recursion over the character list so that the
kernel can evaluate them.  Python floats are modelled as `ℚ`; `round(x, 2)`
is modelled as round-half-to-even at two decimals.  Python dictionaries with
optional keys are modelled with `Option` fields (`none` = key absent), and a
code path that raises an exception is modelled by an `Option`-returning body
(`none` = an exception was raised) wrapped by the `except` handler.
-/

/-! ### Python string primitives -/

/-- Split a character list at newline characters (model of `str.split('\n')`). -/
def chSplit : List Char → List Char → List (List Char)
  | [], acc => [acc.reverse]
  | c :: cs, acc => if c = '\n' then acc.reverse :: chSplit cs [] else chSplit cs (c :: acc)

/-- Model of Python `response.split('\n')`. -/
def pySplitLines (s : String) : List String := (chSplit s.data []).map (fun cs => ⟨cs⟩)

/-- Strip whitespace from both ends of a character list. -/
def chTrim (cs : List Char) : List Char :=
  ((cs.dropWhile Char.isWhitespace).reverse.dropWhile Char.isWhitespace).reverse

/-- Model of Python `str.strip()`. -/
def pyStrip (s : String) : String := ⟨chTrim s.data⟩

/-- Replace every non-overlapping occurrence of `pat` (left to right) by `rep`;
the `Nat` argument is recursion fuel, instantiated with the string length
(the source only ever replaces non-empty literal patterns). -/
def chReplace (pat rep : List Char) : Nat → List Char → List Char
  | _, [] => []
  | 0, s => s
  | n + 1, c :: rest =>
    if pat.isPrefixOf (c :: rest) then rep ++ chReplace pat rep n ((c :: rest).drop pat.length)
    else c :: chReplace pat rep n rest

/-- Model of Python `s.replace(pat, rep)`. -/
def pyReplace (s pat rep : String) : String := ⟨chReplace pat.data rep.data s.data.length s.data⟩

/-- Model of Python `s.startswith(pre)`. -/
def pyStartsWith (s pre : String) : Bool := pre.data.isPrefixOf s.data

/-- Model of Python `str.upper()` (the source only uppercases ASCII option letters). -/
def pyUpper (s : String) : String := ⟨s.data.map Char.toUpper⟩

/-- Model of the Python slice `s[n:]`. -/
def pyDrop (s : String) (n : Nat) : String := ⟨s.data.drop n⟩

/-- Model of the Python slice `s[:n]` / indexing `s[0]` via `pyTake s 1`. -/
def pyTake (s : String) (n : Nat) : String := ⟨s.data.take n⟩

/-- Model of Python `', '.join(l)`. -/
def joinComma : List String → String
  | [] => ""
  | [x] => x
  | x :: xs => x ++ ", " ++ joinComma xs

/-! ### Float rounding -/

/-- Round a rational to the nearest integer, ties to even (the tie-breaking
rule of Python's `round`). -/
def rhe (q : ℚ) : ℤ :=
  let f := ⌊q⌋
  let r := q - (f : ℚ)
  if r < 1 / 2 then f else if r > 1 / 2 then f + 1 else if Even f then f else f + 1

/-- Model of Python `round(q, 2)`. -/
def round2 (q : ℚ) : ℚ := (rhe (q * 100) : ℚ) / 100

/-- Model of Python `round(q, 1)` (used by the `:.1f` format specifier). -/
def rhe1 (q : ℚ) : ℤ := rhe (q * 10)

/-- Model of the Python format `f"{q:.1f}"` for the non-negative scores the
recommendation messages print. -/
def fmt1 (q : ℚ) : String :=
  let m := rhe1 q
  toString (m / 10) ++ "." ++ toString ((m % 10).natAbs)

/-! ### Python values and question dictionaries -/

/-- A Python value that can sit in a `Dict[str, Any]` question entry: the
source only ever distinguishes strings (on which `.upper()` succeeds) from
non-string values (on which it raises `AttributeError`). -/
inductive PyVal where
  | str : String → PyVal
  | int : Int → PyVal
deriving DecidableEq, Repr

/-- Python truthiness of a value. -/
def PyVal.truthy : PyVal → Bool
  | .str s => s != ""
  | .int n => n != 0

/-- Model of `v.upper()`: succeeds exactly on strings, raises (`none`) otherwise. -/
def PyVal.upperAttr : PyVal → Option String
  | .str s => some (pyUpper s)
  | .int _ => none

/-- A question dictionary as built by the parser or passed to the grader:
each field is `none` when the corresponding key is absent. -/
structure PyQuestion where
  question : Option PyVal := none
  options : Option (List (String × String)) := none
  correct_answer : Option PyVal := none
  explanation : Option PyVal := none
deriving DecidableEq, Repr

/-- Python truthiness of the question dictionary: true iff it has at least one key. -/
def PyQuestion.truthy (q : PyQuestion) : Bool :=
  q.question.isSome || q.options.isSome || q.correct_answer.isSome || q.explanation.isSome

/-! ### The grader (`QuizParser.calculate_quiz_results`)

`user_answers` models the `Dict[int, str]` answer map as a lookup function
(`none` = key absent).  The grader calls `time.time()` once; its return value
is made explicit as the `now` argument of the embedding.
-/

/-- One iteration of the scoring loop:
`if user_answer and correct_answer and user_answer.upper() == correct_answer.upper()`.
Returns `none` when the iteration raises (`.upper()` on a non-string). -/
def scoreOne (q : PyQuestion) (ua : Option String) : Option Nat :=
  match ua, q.correct_answer with
  | some u, some c =>
    if u != "" && c.truthy then
      match c.upperAttr with
      | some cs => some (if pyUpper u == cs then 1 else 0)
      | none => none
    else some 0
  | _, _ => some 0

/-- The scoring loop of `calculate_quiz_results`, counting correct answers
from index `i` on; `none` when some iteration raises. -/
def countCorrect (ans : Nat → Option String) : List PyQuestion → Nat → Option Nat
  | [], _ => some 0
  | q :: qs, i =>
    match scoreOne q (ans i), countCorrect ans qs (i + 1) with
    | some a, some b => some (a + b)
    | _, _ => none

/-- One entry of the per-question breakdown produced by `_get_questions_breakdown`. -/
structure BreakdownEntry where
  question_number : Nat
  question : PyVal
  options : List (String × String)
  user_answer : String
  correct_answer : PyVal
  is_correct : Bool
  explanation : PyVal
deriving DecidableEq, Repr

/-- One iteration of `_get_questions_breakdown` at index `i`;
`none` when it raises (`.upper()` on a non-string `correct_answer`). -/
def breakdownOne (q : PyQuestion) (ua : Option String) (i : Nat) : Option BreakdownEntry :=
  let user_answer := ua.getD "Not answered"
  let correct_answer := q.correct_answer.getD (.str "Unknown")
  if user_answer = "Not answered" then
    some ⟨i + 1, q.question.getD (.str ""), q.options.getD [], user_answer, correct_answer,
      false, q.explanation.getD (.str "")⟩
  else
    match correct_answer.upperAttr with
    | some cs => some ⟨i + 1, q.question.getD (.str ""), q.options.getD [], user_answer,
        correct_answer, pyUpper user_answer == cs, q.explanation.getD (.str "")⟩
    | none => none

/-- The loop of `_get_questions_breakdown`, starting at index `i`. -/
def breakdownFrom (ans : Nat → Option String) : List PyQuestion → Nat → Option (List BreakdownEntry)
  | [], _ => some []
  | q :: qs, i =>
    match breakdownOne q (ans i) i, breakdownFrom ans qs (i + 1) with
    | some e, some rest => some (e :: rest)
    | _, _ => none

/-- Model of `QuizParser._get_questions_breakdown`. -/
def get_questions_breakdown (qs : List PyQuestion) (ans : Nat → Option String) :
    Option (List BreakdownEntry) :=
  breakdownFrom ans qs 0

/-- The result dictionary returned by `calculate_quiz_results`. -/
structure QuizResult where
  score : Nat
  total_questions : Nat
  percentage : ℚ
  time_taken : ℚ
  questions_breakdown : List BreakdownEntry
deriving DecidableEq, Repr

/-- The `try` body of `calculate_quiz_results`; `none` means an exception was
raised somewhere in the body.  `now` is the value returned by the grader's
own `time.time()` call. -/
def calcBody (questions : List PyQuestion) (user_answers : Nat → Option String)
    (start_time now : ℚ) : Option QuizResult :=
  let total_questions := questions.length
  let time_taken := now - start_time
  match countCorrect user_answers questions 0 with
  | none => none
  | some correct_answers =>
    let percentage : ℚ :=
      if total_questions > 0 then (correct_answers : ℚ) / (total_questions : ℚ) * 100 else 0
    match get_questions_breakdown questions user_answers with
    | none => none
    | some bd =>
      some ⟨correct_answers, total_questions, round2 percentage, round2 time_taken, bd⟩

/-- Model of `QuizParser.calculate_quiz_results`: the `try` body with the
`except` handler that returns the default result dictionary. -/
def calculate_quiz_results (questions : List PyQuestion) (user_answers : Nat → Option String)
    (start_time now : ℚ) : QuizResult :=
  match calcBody questions user_answers start_time now with
  | some r => r
  | none => ⟨0, questions.length, 0, 0, []⟩

/-! ### The quiz-response parser (`HuggingFaceService._parse_quiz_response`) -/

/-- The question dictionary with no keys (`current_question = {}`). -/
def emptyDict : PyQuestion := ⟨none, none, none, none⟩

/-- Python dict assignment `d[k] = v`: update the value in place when the key
exists (keeping its position), otherwise append a new entry. -/
def updateAssoc (l : List (String × String)) (k v : String) : List (String × String) :=
  if l.any (fun p => p.1 == k) then l.map (fun p => if p.1 == k then (k, v) else p)
  else l ++ [(k, v)]

/-- One iteration of the parser's line scan, transforming the state
`(questions, current_question)`. -/
def parseStep (st : List PyQuestion × PyQuestion) (rawLine : String) :
    List PyQuestion × PyQuestion :=
  let line := pyStrip rawLine
  let questions := st.1
  let cur := st.2
  if pyStartsWith line "Question:" then
    (if cur.truthy then questions ++ [cur] else questions,
     ⟨some (.str (pyStrip (pyReplace line "Question:" ""))), some [], some (.str ""),
      some (.str "")⟩)
  else if pyStartsWith line "A)" || pyStartsWith line "B)" || pyStartsWith line "C)" ||
      pyStartsWith line "D)" then
    match cur.options with
    | some opts =>
      (questions,
       { cur with options := some (updateAssoc opts (pyTake line 1) (pyStrip (pyDrop line 2))) })
    | none => (questions, cur)
  else if pyStartsWith line "Correct Answer:" then
    (questions, { cur with correct_answer := some (.str (pyStrip (pyReplace line "Correct Answer:" ""))) })
  else if pyStartsWith line "Explanation:" then
    (questions, { cur with explanation := some (.str (pyStrip (pyReplace line "Explanation:" ""))) })
  else (questions, cur)

/-- The end-of-scan flush condition
`if current_question and current_question.get('question'):`. -/
def pendingFlush (cur : PyQuestion) : Bool :=
  cur.truthy && (match cur.question with | some v => v.truthy | none => false)

/-- The full line scan of `_parse_quiz_response`, producing the parsed
question list (before truncation and the empty-result fallback). -/
def scanQuestions (response : String) : List PyQuestion :=
  let st := (pySplitLines response).foldl parseStep ([], emptyDict)
  if pendingFlush st.2 then st.1 ++ [st.2] else st.1

/-- Model of `response.split('\n')[0]`. -/
def firstLine (s : String) : String := (pySplitLines s).headD ""

/-- First fallback question template. -/
def fallbackQ1 (topic : String) : PyQuestion :=
  ⟨some (.str ("What is an important concept in " ++ topic ++ "?")),
   some [("A", "Basic principle of " ++ topic), ("B", "Advanced theory in " ++ topic),
         ("C", "Common misconception about " ++ topic), ("D", "Unrelated concept")],
   some (.str "A"),
   some (.str ("The basic principles form the foundation of understanding " ++ topic ++ "."))⟩

/-- Second fallback question template. -/
def fallbackQ2 (topic : String) : PyQuestion :=
  ⟨some (.str ("Which of the following best describes " ++ topic ++ "?")),
   some [("A", "A complex field of study"), ("B", "An area requiring practical application"),
         ("C", "A theoretical framework"), ("D", "All of the above")],
   some (.str "D"),
   some (.str (topic ++ " encompasses theoretical knowledge and practical applications."))⟩

/-- Third fallback question template. -/
def fallbackQ3 (topic : String) : PyQuestion :=
  ⟨some (.str ("What is the primary goal when studying " ++ topic ++ "?")),
   some [("A", "To memorize facts about " ++ topic),
         ("B", "To understand core concepts and applications"),
         ("C", "To pass examinations only"), ("D", "To impress others with knowledge")],
   some (.str "B"),
   some (.str ("Understanding core concepts and their applications is key to mastering " ++
     topic ++ "."))⟩

/-- Fourth fallback question template. -/
def fallbackQ4 (topic : String) : PyQuestion :=
  ⟨some (.str ("How can knowledge of " ++ topic ++ " be applied in real-world scenarios?")),
   some [("A", "Through theoretical analysis only"), ("B", "By solving practical problems"),
         ("C", "In academic discussions exclusively"), ("D", "It has no practical applications")],
   some (.str "B"),
   some (.str ("Knowledge of " ++ topic ++
     " is most valuable when applied to solve real-world problems."))⟩

/-- Fifth fallback question template. -/
def fallbackQ5 (topic : String) : PyQuestion :=
  ⟨some (.str ("What approach is most effective for learning " ++ topic ++ "?")),
   some [("A", "Passive reading only"), ("B", "Active practice and application"),
         ("C", "Memorization without understanding"), ("D", "Avoiding challenging concepts")],
   some (.str "B"),
   some (.str ("Active practice and application reinforce understanding and retention of " ++
     topic ++ "."))⟩

/-- Model of `HuggingFaceService._generate_fallback_quiz` (Python name starts
with an underscore): the fixed five-template library truncated to
`num_questions`. -/
def generate_fallback_quiz (topic : String) (num_questions : Nat) : List PyQuestion :=
  [fallbackQ1 topic, fallbackQ2 topic, fallbackQ3 topic, fallbackQ4 topic,
   fallbackQ5 topic].take num_questions

/-- Model of `HuggingFaceService._parse_quiz_response` (Python name starts
with an underscore).  The `try` body cannot raise on a `str` argument, so no
exception path is modelled. -/
def parse_quiz_response (response : String) (num_questions : Nat) : List PyQuestion :=
  let questions := scanQuestions response
  if questions.length = 0 then
    generate_fallback_quiz
      (if response != "" then firstLine response else "General Knowledge") num_questions
  else
    questions.take num_questions

/-- Model of `HuggingFaceService.generate_quiz_questions`.  `apiResponse` is
the value returned by `_make_api_request` (`none` = the request failed and
returned `None`); `difficulty` only influences the prompt sent to the
external model, never the result shape. -/
def generate_quiz_questions (topic difficulty : String) (num_questions : Nat)
    (apiResponse : Option String) : List PyQuestion :=
  match apiResponse with
  | some response =>
    if response != "" then parse_quiz_response response num_questions
    else generate_fallback_quiz topic num_questions
  | none => generate_fallback_quiz topic num_questions

/-! ### Topic and difficulty analytics (`QuizParser.analyze_topic_performance`,
`QuizParser.get_difficulty_analysis`) -/

/-- A historical quiz record as read by the analytics functions
(`none` = key absent, replaced by the `.get` default). -/
structure HistRecord where
  topic : Option String := none
  difficulty : Option String := none
  percentage : Option ℚ := none

/-- The per-topic accumulator built by the first loop of
`analyze_topic_performance`. -/
structure TopicAcc where
  total_quizzes : Nat
  total_score : ℚ
  best_score : ℚ
  worst_score : ℚ
  scores : List ℚ
deriving DecidableEq, Repr

/-- The initial accumulator entered into `topic_stats` for a new topic. -/
def topicAccInit : TopicAcc := ⟨0, 0, 0, 100, []⟩

/-- One record folded into a topic's accumulator. -/
def topicAccAdd (a : TopicAcc) (p : ℚ) : TopicAcc :=
  ⟨a.total_quizzes + 1, a.total_score + p, max a.best_score p, min a.worst_score p,
   a.scores ++ [p]⟩

/-- Fold one history record into the insertion-ordered `topic_stats` mapping. -/
def updateTopicStats (l : List (String × TopicAcc)) (t : String) (p : ℚ) :
    List (String × TopicAcc) :=
  if l.any (fun kv => kv.1 == t) then
    l.map (fun kv => if kv.1 == t then (kv.1, topicAccAdd kv.2 p) else kv)
  else l ++ [(t, topicAccAdd topicAccInit p)]

/-- The finished per-topic statistics, with `average_score` and `trend` added
by the second loop. -/
structure TopicStats where
  total_quizzes : Nat
  total_score : ℚ
  best_score : ℚ
  worst_score : ℚ
  scores : List ℚ
  average_score : ℚ
  trend : ℚ
deriving DecidableEq, Repr

/-- Arithmetic mean of a score list (`sum(l)/len(l)`). -/
def mean (l : List ℚ) : ℚ := l.sum / (l.length : ℚ)

/-- The second loop of `analyze_topic_performance`: compute `average_score`
and `trend` (`scores[-3:]` is `drop (n - 3)`, `scores[:3]` is `take 3`). -/
def finishTopic (a : TopicAcc) : TopicStats :=
  ⟨a.total_quizzes, a.total_score, a.best_score, a.worst_score, a.scores,
   a.total_score / (a.total_quizzes : ℚ),
   if a.scores.length > 1 then
     mean (a.scores.drop (a.scores.length - 3)) - mean (a.scores.take 3)
   else 0⟩

/-- Model of `QuizParser.analyze_topic_performance`. -/
def analyze_topic_performance (quiz_history : List HistRecord) : List (String × TopicStats) :=
  if quiz_history.isEmpty then []
  else
    ((quiz_history.foldl
        (fun m quiz => updateTopicStats m (quiz.topic.getD "Unknown") (quiz.percentage.getD 0))
        []).map (fun kv => (kv.1, finishTopic kv.2)))

/-- The per-difficulty accumulator built by the first loop of
`get_difficulty_analysis`. -/
structure DiffAcc where
  total_quizzes : Nat
  total_score : ℚ
  scores : List ℚ
deriving DecidableEq, Repr

/-- Fold one history record into the insertion-ordered `difficulty_stats`
mapping. -/
def updateDiffStats (l : List (String × DiffAcc)) (d : String) (p : ℚ) :
    List (String × DiffAcc) :=
  if l.any (fun kv => kv.1 == d) then
    l.map (fun kv =>
      if kv.1 == d then
        (kv.1, ⟨kv.2.total_quizzes + 1, kv.2.total_score + p, kv.2.scores ++ [p]⟩)
      else kv)
  else l ++ [(d, ⟨1, p, [p]⟩)]

/-- The finished per-difficulty statistics. -/
structure DiffStats where
  total_quizzes : Nat
  total_score : ℚ
  scores : List ℚ
  average_score : ℚ
  success_rate : ℚ
deriving DecidableEq, Repr

/-- The second loop of `get_difficulty_analysis`: `average_score` and
`success_rate` (fraction of scores `>= 70`, as a percentage). -/
def finishDiff (a : DiffAcc) : DiffStats :=
  ⟨a.total_quizzes, a.total_score, a.scores, a.total_score / (a.total_quizzes : ℚ),
   (((a.scores.filter (fun s => decide ((70 : ℚ) ≤ s))).length : ℚ) / (a.scores.length : ℚ)) * 100⟩

/-- Model of `QuizParser.get_difficulty_analysis`. -/
def get_difficulty_analysis (quiz_history : List HistRecord) : List (String × DiffStats) :=
  if quiz_history.isEmpty then []
  else
    ((quiz_history.foldl
        (fun m quiz => updateDiffStats m (quiz.difficulty.getD "medium") (quiz.percentage.getD 0))
        []).map (fun kv => (kv.1, finishDiff kv.2)))

/-! ### Study recommendations (`QuizParser.generate_study_recommendations`) -/

/-- Insert one topic entry into a list kept sorted by `average_score`,
after all entries with a less-or-equal key (so the overall sort is stable,
like Python's `sorted`). -/
def insertByAvg (x : String × TopicStats) :
    List (String × TopicStats) → List (String × TopicStats)
  | [] => [x]
  | y :: ys =>
    if y.2.average_score ≤ x.2.average_score then y :: insertByAvg x ys else x :: y :: ys

/-- Model of `sorted(topic_performance.items(), key=lambda x: x[1]['average_score'])`:
a stable sort by `average_score`. -/
def sortByAvg (l : List (String × TopicStats)) : List (String × TopicStats) :=
  l.foldl (fun acc x => insertByAvg x acc) []

/-- The Rule-1 message about the weakest topic. -/
def focusMsg (t : String) (avg : ℚ) : String :=
  "Focus on improving your understanding of " ++ t ++ " - your average score is " ++
    fmt1 avg ++ "%"

/-- The Rule-2 message listing declining topics. -/
def reviewMsg (ts : List String) : String :=
  "Review " ++ joinComma ts ++ " as your performance seems to be declining in these areas"

/-- The Rule-3 message about a difficulty level. -/
def considerMsg (d : String) (sr : ℚ) : String :=
  "Consider practicing more " ++ d ++ " level questions - your success rate is " ++
    fmt1 sr ++ "%"

/-- The generic encouragement emitted when no rule fires. -/
def genericMsg : String :=
  "Keep up the great work! Continue practicing regularly to maintain your performance."

/-- Model of `QuizParser.generate_study_recommendations`. -/
def generate_study_recommendations (topic_performance : List (String × TopicStats))
    (difficulty_analysis : List (String × DiffStats)) : List String :=
  let recs1 :=
    if topic_performance.isEmpty then []
    else
      match sortByAvg topic_performance with
      | [] => []
      | weakest :: _ =>
        let r1 :=
          if weakest.2.average_score < 70 then
            [focusMsg weakest.1 weakest.2.average_score]
          else []
        let declining :=
          (topic_performance.filter (fun kv => decide (kv.2.trend < -10))).map (fun kv => kv.1)
        let r2 := if declining.isEmpty then [] else [reviewMsg declining]
        r1 ++ r2
  let recs2 :=
    (difficulty_analysis.filter (fun kv => decide (kv.2.average_score < 60))).map
      (fun kv => considerMsg kv.1 kv.2.success_rate)
  let recs := recs1 ++ recs2
  (if recs.isEmpty then [genericMsg] else recs).take 3

/-! ### Helper lemmas about the grader -/

theorem round2_zero : round2 0 = 0 := by norm_num [round2, rhe]

theorem scoreOne_le_one (q : PyQuestion) (ua : Option String) (x : Nat)
    (h : scoreOne q ua = some x) : x ≤ 1 := by
  unfold scoreOne at h
  rcases ua with _ | u
  · cases hc : q.correct_answer <;> rw [hc] at h <;> simp_all <;> omega
  · cases hc : q.correct_answer with
    | none => rw [hc] at h; simp_all; omega
    | some c =>
      rw [hc] at h
      simp only [] at h
      split at h
      · rcases c with s | m
        · simp [PyVal.upperAttr] at h
          split at h <;> omega
        · simp [PyVal.upperAttr] at h
      · simp at h; omega

theorem countCorrect_le (ans : Nat → Option String) :
    ∀ (qs : List PyQuestion) (i c : Nat), countCorrect ans qs i = some c → c ≤ qs.length := by
  intro qs
  induction qs with
  | nil => intro i c h; simp [countCorrect] at h; omega
  | cons q qs ih =>
    intro i c h
    unfold countCorrect at h
    cases ha : scoreOne q (ans i) with
    | none => rw [ha] at h; simp at h
    | some a =>
      rw [ha] at h
      cases hb : countCorrect ans qs (i + 1) with
      | none => rw [hb] at h; simp at h
      | some b =>
        rw [hb] at h
        simp at h
        have h1 := scoreOne_le_one q (ans i) a ha
        have h2 := ih (i + 1) b hb
        simp only [List.length_cons]
        omega

theorem calcBody_eq_some (qs : List PyQuestion) (ans : Nat → Option String) (s n : ℚ)
    (r : QuizResult) (h : calcBody qs ans s n = some r) :
    ∃ c bd, countCorrect ans qs 0 = some c ∧ get_questions_breakdown qs ans = some bd ∧
      r = ⟨c, qs.length,
        round2 (if qs.length > 0 then (c : ℚ) / (qs.length : ℚ) * 100 else 0),
        round2 (n - s), bd⟩ := by
  simp only [calcBody] at h
  cases hc : countCorrect ans qs 0 with
  | none => rw [hc] at h; simp at h
  | some c =>
    rw [hc] at h
    cases hbd : get_questions_breakdown qs ans with
    | none => rw [hbd] at h; simp at h
    | some bd =>
      rw [hbd] at h
      simp at h
      exact ⟨c, bd, rfl, rfl, h.symm⟩

/-! ### Claim C4 -/

/-- C4: for every `(questions, answers, elapsed)` input to the grader, the
returned QuizResult satisfies `0 ≤ score ≤ total_questions`, and
`percentage = round(100*score/total_questions, 2)` when `total_questions > 0`,
else `percentage = 0.0` (`score : ℕ`, so `0 ≤ score` is implicit in the type). -/
theorem grader_invariants (qs : List PyQuestion) (ans : Nat → Option String) (s n : ℚ) :
    (calculate_quiz_results qs ans s n).score ≤
      (calculate_quiz_results qs ans s n).total_questions ∧
    (calculate_quiz_results qs ans s n).percentage =
      (if (calculate_quiz_results qs ans s n).total_questions = 0 then 0
       else round2 (100 * ((calculate_quiz_results qs ans s n).score : ℚ) /
         ((calculate_quiz_results qs ans s n).total_questions : ℚ))) := by
  cases hb : calcBody qs ans s n with
  | none =>
    simp only [calculate_quiz_results, hb]
    refine ⟨Nat.zero_le _, ?_⟩
    split
    · rfl
    · rw [show (100 : ℚ) * ((0 : Nat) : ℚ) / (qs.length : ℚ) = 0 by norm_num, round2_zero]
  | some r =>
    obtain ⟨c, bd, hc, hbd, rfl⟩ := calcBody_eq_some qs ans s n r hb
    simp only [calculate_quiz_results, hb]
    refine ⟨countCorrect_le ans qs 0 c hc, ?_⟩
    by_cases h0 : qs.length = 0
    · simp [h0, round2_zero]
    · have hpos : 0 < qs.length := Nat.pos_of_ne_zero h0
      simp only [h0, hpos, if_pos, if_neg, if_true, if_false]
      congr 1
      ring

/-! ### Claim C1 -/

/-- A malformed question dictionary: `correct_answer` holds the integer `5`,
on which `.upper()` raises `AttributeError`. -/
def malformedQ : PyQuestion := { correct_answer := some (.int 5) }

/-- The answer map `{0: 'A'}`. -/
def answersA : Nat → Option String := fun i => if i = 0 then some "A" else none

/-- The empty answer map `{}`. -/
def noAnswers : Nat → Option String := fun _ => none

/-- C1 counterexample: grading the malformed question list
`[{'correct_answer': 5}]` with answers `{0: 'A'}` raises inside the `try`
body, and the `except` handler returns `total_questions = len(questions) = 1`,
not the fully zeroed result the claim promises. -/
theorem grader_error_fallback_cex :
    (calculate_quiz_results [malformedQ] answersA 0 0).total_questions ≠ 0 := by
  decide

/-- C1 amended: with empty `questions` the grader returns a result with
`score = 0`, `total_questions = 0`, `percentage = 0.0` and an empty breakdown
(and `time_taken` from its own clock sample); when the `try` body raises
(malformed input), it returns `score = 0`, `percentage = 0.0`,
`time_taken = 0.0`, empty breakdown, but `total_questions = len(questions)`,
which is nonzero for nonempty malformed input.  No exception escapes: the
function is total. -/
theorem grader_error_fallback (qs : List PyQuestion) (ans : Nat → Option String) (s n : ℚ) :
    (qs = [] → calculate_quiz_results qs ans s n = ⟨0, 0, 0, round2 (n - s), []⟩) ∧
    (calcBody qs ans s n = none →
      calculate_quiz_results qs ans s n = ⟨0, qs.length, 0, 0, []⟩) := by
  constructor
  · rintro rfl
    simp [calculate_quiz_results, calcBody, countCorrect, get_questions_breakdown,
      breakdownFrom, round2_zero]
  · intro h
    simp [calculate_quiz_results, h]

/-- C1 witness: the amended theorem applied at the empty question list and at
the malformed one-question list. -/
theorem grader_error_fallback_witness :
    calculate_quiz_results [] answersA 0 0 = ⟨0, 0, 0, round2 (0 - 0), []⟩ ∧
    calculate_quiz_results [malformedQ] answersA 0 0 = ⟨0, 1, 0, 0, []⟩ :=
  ⟨(grader_error_fallback [] answersA 0 0).1 rfl,
   (grader_error_fallback [malformedQ] answersA 0 0).2 (by decide)⟩

/-! ### Claim C3 -/

/-- C3 counterexample: the grader takes a start timestamp and samples
`time.time()` itself (the `now` argument of the embedding), so two calls with
identical Python arguments `(questions=[], answers={}, start_time=0)` made at
clock instants `0` and `1` return different QuizResults — the grader is not a
pure function of its arguments and `time_taken` is not a rounded
caller-supplied elapsed value. -/
theorem grader_timing_cex :
    calculate_quiz_results [] noAnswers 0 0 ≠ calculate_quiz_results [] noAnswers 0 1 := by
  intro h
  have ht : (calculate_quiz_results [] noAnswers 0 0).time_taken =
      (calculate_quiz_results [] noAnswers 0 1).time_taken := by rw [h]
  simp [calculate_quiz_results, calcBody, countCorrect, get_questions_breakdown,
    breakdownFrom] at ht
  norm_num [round2, rhe] at ht

/-- C3 amended: the grader performs its own timing.  Writing `now` for the
value its internal `time.time()` call returns, the returned `time_taken`
equals `round(now - start_time, 2)` whenever the `try` body succeeds, and
`0.0` on the exception path; the result is a deterministic function of
`(questions, answers, start_time)` and the clock sample `now`. -/
theorem grader_timing (qs : List PyQuestion) (ans : Nat → Option String) (s n : ℚ) :
    (calculate_quiz_results qs ans s n).time_taken =
      if (calcBody qs ans s n).isSome then round2 (n - s) else 0 := by
  cases hb : calcBody qs ans s n with
  | none => simp [calculate_quiz_results, hb]
  | some r =>
    obtain ⟨c, bd, _, _, rfl⟩ := calcBody_eq_some qs ans s n r hb
    simp [calculate_quiz_results, hb]

/-! ### Claim C2 -/

/-- The condition the claim states for the mid-scan flush: the accumulated
record has a non-empty `question` field. -/
def questionFieldNonempty (cur : PyQuestion) : Bool :=
  match cur.question with
  | some v => v.truthy
  | none => false

/-- Variant of `parseStep` following the claim's words: the mid-scan flush
keeps the previous record only if its `question` field is non-empty (the
source instead tests dict truthiness, `if current_question:`). -/
def parseStepSpec (st : List PyQuestion × PyQuestion) (rawLine : String) :
    List PyQuestion × PyQuestion :=
  let line := pyStrip rawLine
  let questions := st.1
  let cur := st.2
  if pyStartsWith line "Question:" then
    (if questionFieldNonempty cur then questions ++ [cur] else questions,
     ⟨some (.str (pyStrip (pyReplace line "Question:" ""))), some [], some (.str ""),
      some (.str "")⟩)
  else if pyStartsWith line "A)" || pyStartsWith line "B)" || pyStartsWith line "C)" ||
      pyStartsWith line "D)" then
    match cur.options with
    | some opts =>
      (questions,
       { cur with options := some (updateAssoc opts (pyTake line 1) (pyStrip (pyDrop line 2))) })
    | none => (questions, cur)
  else if pyStartsWith line "Correct Answer:" then
    (questions, { cur with correct_answer := some (.str (pyStrip (pyReplace line "Correct Answer:" ""))) })
  else if pyStartsWith line "Explanation:" then
    (questions, { cur with explanation := some (.str (pyStrip (pyReplace line "Explanation:" ""))) })
  else (questions, cur)

/-- The line scan as the claim describes it, built from `parseStepSpec`. -/
def scanQuestionsSpec (response : String) : List PyQuestion :=
  let st := (pySplitLines response).foldl parseStepSpec ([], emptyDict)
  if questionFieldNonempty st.2 then st.1 ++ [st.2] else st.1

/-- Response on which the source and the claim disagree. -/
def cexResp : String := "Question:\nQuestion: Foo"

/-- The end-of-scan flush condition of the source is equivalent to a
non-empty `question` field alone, since a present `question` key already
makes the dict truthy. -/
theorem pendingFlush_eq (cur : PyQuestion) :
    pendingFlush cur = questionFieldNonempty cur := by
  rcases cur with ⟨q, o, c, e⟩
  rcases q with _ | v <;>
    simp [pendingFlush, questionFieldNonempty, PyQuestion.truthy]

/-- C2 counterexample: on the response `"Question:\nQuestion: Foo"` the
source's scan flushes the first record — whose `question` field is the empty
string — because the dict is non-empty, producing two records, while the
claim's non-empty-`question`-field rule would produce one. -/
theorem parser_flush_cex :
    (scanQuestions cexResp).length = 2 ∧
    ((scanQuestions cexResp).headD emptyDict).question = some (.str "") ∧
    (scanQuestionsSpec cexResp).length = 1 := by
  refine ⟨by decide, by decide, by decide⟩

/-- C2 amended: a `Question:` line flushes the previous record whenever the
accumulated dict is non-empty (has any key — e.g. set by a previous
`Question:`, `Correct Answer:` or `Explanation:` line), regardless of its
`question` field; the end-of-scan flush keeps the pending record exactly when
its `question` field is a non-empty string; and when the scan yields no
records the fallback set is returned. -/
theorem parser_flush
    (st : List PyQuestion × PyQuestion) (line : String) (response : String) (n : Nat) :
    (pyStartsWith (pyStrip line) "Question:" = true →
      (parseStep st line).1 = if st.2.truthy then st.1 ++ [st.2] else st.1) ∧
    (scanQuestions response =
      (let fin := (pySplitLines response).foldl parseStep ([], emptyDict)
       if questionFieldNonempty fin.2 then fin.1 ++ [fin.2] else fin.1)) ∧
    (scanQuestions response = [] →
      parse_quiz_response response n =
        generate_fallback_quiz
          (if response != "" then firstLine response else "General Knowledge") n) := by
  refine ⟨?_, ?_, ?_⟩
  · intro h
    simp [parseStep, h]
  · simp only [scanQuestions, pendingFlush_eq]
  · intro h
    simp [parse_quiz_response, h]

/-- C2 witness: the amended theorem applied to a concrete `Question:` line
with a pending record, and to a response that parses to nothing. -/
theorem parser_flush_witness :
    (parseStep ([], ⟨none, none, some (.str "A"), none⟩) "Question: Hi").1 =
      (if (⟨none, none, some (.str "A"), none⟩ : PyQuestion).truthy then
        ([] : List PyQuestion) ++ [⟨none, none, some (.str "A"), none⟩] else []) ∧
    parse_quiz_response "hello" 5 =
      generate_fallback_quiz (if "hello" != "" then firstLine "hello" else "General Knowledge") 5 :=
  ⟨(parser_flush ([], ⟨none, none, some (.str "A"), none⟩) "Question: Hi" "" 0).1 (by decide),
   (parser_flush ([], emptyDict) "" "hello" 5).2.2 (by decide)⟩

/-! ### Claim C10 -/

/-- C10: when the external call succeeds (`response` non-empty) but the scan
parses zero questions, the parser returns the fallback set parameterized by
the first line of the response text (or by `"General Knowledge"` when the
response is empty) — not by the topic the caller originally requested, as the
concrete inequality at topic `"Algebra"` and response `"gibberish text"`
shows. -/
theorem parser_fallback_first_line (response topic difficulty : String) (n : Nat) :
    (scanQuestions response = [] →
      parse_quiz_response response n =
        generate_fallback_quiz
          (if response != "" then firstLine response else "General Knowledge") n) ∧
    (response ≠ "" → scanQuestions response = [] →
      generate_quiz_questions topic difficulty n (some response) =
        generate_fallback_quiz (firstLine response) n) ∧
    generate_quiz_questions "Algebra" "easy" 5 (some "gibberish text") ≠
      generate_fallback_quiz "Algebra" 5 := by
  refine ⟨?_, ?_, by decide⟩
  · intro h
    simp [parse_quiz_response, h]
  · intro hne h
    have hb : (response != "") = true := by simpa [bne_iff_ne] using hne
    simp [generate_quiz_questions, hb, parse_quiz_response, h]

/-- C10 witness: the theorem applied at the non-empty unparsable response
`"gibberish text"`. -/
theorem parser_fallback_first_line_witness :
    generate_quiz_questions "Algebra" "easy" 5 (some "gibberish text") =
      generate_fallback_quiz (firstLine "gibberish text") 5 :=
  (parser_fallback_first_line "gibberish text" "Algebra" "easy" 5).2.1 (by decide) (by decide)

/-! ### Claim C7 -/

/-- C7: for every topic, difficulty and count `n`, the generator returns at
most `n` questions; when the external call is unavailable (`None` response)
it returns exactly `min n 5` fallback questions in fixed order, each
referencing the topic in its question text and each with a `correct_answer`
that is a key of its own options mapping. -/
theorem generate_length_and_fallback (topic difficulty : String) (n : Nat)
    (resp : Option String) :
    (generate_quiz_questions topic difficulty n resp).length ≤ n ∧
    (generate_quiz_questions topic difficulty n none).length = min n 5 ∧
    ∀ q ∈ generate_quiz_questions topic difficulty n none,
      (∃ pre post, q.question = some (.str (pre ++ topic ++ post))) ∧
      ∃ ca opts, q.correct_answer = some (.str ca) ∧ q.options = some opts ∧
        (opts.map Prod.fst).contains ca = true := by
  refine ⟨?_, ?_, ?_⟩
  · rcases resp with _ | r
    · simp [generate_quiz_questions, generate_fallback_quiz, List.length_take]
    · simp only [generate_quiz_questions]
      split
      · simp only [parse_quiz_response]
        split
        · simp [generate_fallback_quiz, List.length_take]
        · simp [List.length_take]
      · simp [generate_fallback_quiz, List.length_take]
  · simp [generate_quiz_questions, generate_fallback_quiz, List.length_take]
  · intro q hq
    simp only [generate_quiz_questions, generate_fallback_quiz] at hq
    have hq' := List.mem_of_mem_take hq
    simp only [List.mem_cons, List.mem_singleton] at hq'
    rcases hq' with rfl | rfl | rfl | rfl | rfl | h
    · exact ⟨⟨"What is an important concept in ", "?", rfl⟩,
        "A", _, rfl, rfl, rfl⟩
    · exact ⟨⟨"Which of the following best describes ", "?", rfl⟩,
        "D", _, rfl, rfl, by decide⟩
    · exact ⟨⟨"What is the primary goal when studying ", "?", rfl⟩,
        "B", _, rfl, rfl, rfl⟩
    · exact ⟨⟨"How can knowledge of ", " be applied in real-world scenarios?", rfl⟩,
        "B", _, rfl, rfl, by decide⟩
    · exact ⟨⟨"What approach is most effective for learning ", "?", rfl⟩,
        "B", _, rfl, rfl, by decide⟩
    · cases h

/-- C7 witness: the fallback-shape part of the theorem applied to the first
fallback question for topic `"Algebra"` with `n = 3`. -/
theorem generate_length_and_fallback_witness :
    (∃ pre post, (fallbackQ1 "Algebra").question = some (.str (pre ++ "Algebra" ++ post))) ∧
    ∃ ca opts, (fallbackQ1 "Algebra").correct_answer = some (.str ca) ∧
      (fallbackQ1 "Algebra").options = some opts ∧ (opts.map Prod.fst).contains ca = true :=
  (generate_length_and_fallback "Algebra" "easy" 3 none).2.2 (fallbackQ1 "Algebra") (by decide)

/-! ### Claim C6 -/

/-- Scenario C history: five records on topic "Algebra" with percentages
40, 50, 60, 70, 80 in chronological order. -/
def algebraHist : List HistRecord :=
  [⟨some "Algebra", some "medium", some 40⟩, ⟨some "Algebra", some "medium", some 50⟩,
   ⟨some "Algebra", some "medium", some 60⟩, ⟨some "Algebra", some "medium", some 70⟩,
   ⟨some "Algebra", some "medium", some 80⟩]

/-- C6: for every topic in the analyzer's output over `n` chronologically
ordered records, `trend = mean(last min(3,n)) - mean(first min(3,n))` when
`n ≥ 2` and `trend = 0` when `n ≤ 1`; when `n = 2` the two windows coincide
and `trend = 0`; and on Scenario C (percentages 40..80 on "Algebra") the
output is exactly `average_score = 60` and `trend = 20`. -/
theorem topic_trend (history : List HistRecord) (p : String × TopicStats)
    (hp : p ∈ analyze_topic_performance history) :
    (p.2.scores.length ≤ 1 → p.2.trend = 0) ∧
    (2 ≤ p.2.scores.length →
      p.2.trend =
        mean (p.2.scores.drop (p.2.scores.length - 3)) - mean (p.2.scores.take 3) ∧
      (p.2.scores.drop (p.2.scores.length - 3)).length = min 3 p.2.scores.length ∧
      (p.2.scores.take 3).length = min 3 p.2.scores.length) ∧
    (p.2.scores.length = 2 → p.2.trend = 0) ∧
    analyze_topic_performance algebraHist =
      [("Algebra", ⟨5, 300, 80, 40, [40, 50, 60, 70, 80], 60, 20⟩)] := by
  have hscen : analyze_topic_performance algebraHist =
      [("Algebra", ⟨5, 300, 80, 40, [40, 50, 60, 70, 80], 60, 20⟩)] := by
    norm_num [analyze_topic_performance, algebraHist, updateTopicStats, topicAccAdd,
      topicAccInit, finishTopic, mean, max_def, min_def]
  unfold analyze_topic_performance at hp
  split at hp
  · exact absurd hp (List.not_mem_nil p)
  · obtain ⟨⟨k, acc⟩, hmem, rfl⟩ := List.mem_map.1 hp
    refine ⟨?_, ?_, ?_, hscen⟩
    · intro h
      simp only [finishTopic] at h ⊢
      rw [if_neg (by omega)]
    · intro h
      simp only [finishTopic] at h ⊢
      rw [if_pos (by omega)]
      refine ⟨rfl, ?_, ?_⟩
      · simp only [List.length_drop]
        omega
      · simp only [List.length_take]
    · intro h
      simp only [finishTopic] at h ⊢
      rw [if_pos (by omega)]
      have hd : acc.scores.drop (acc.scores.length - 3) = acc.scores := by
        rw [h]
        exact List.drop_zero _
      have ht : acc.scores.take 3 = acc.scores :=
        List.take_of_length_le (by omega)
      rw [hd, ht, sub_self]

/-- C6 witness: the theorem applied to the Scenario C history and its
"Algebra" entry, yielding the degenerate-window facts at that entry. -/
theorem topic_trend_witness :
    ((("Algebra", ⟨5, 300, 80, 40, [40, 50, 60, 70, 80], 60, 20⟩) :
        String × TopicStats).2.scores.length = 2 →
      (("Algebra", ⟨5, 300, 80, 40, [40, 50, 60, 70, 80], 60, 20⟩) :
        String × TopicStats).2.trend = 0) ∧
    analyze_topic_performance algebraHist =
      [("Algebra", ⟨5, 300, 80, 40, [40, 50, 60, 70, 80], 60, 20⟩)] := by
  have h := topic_trend algebraHist
    ("Algebra", ⟨5, 300, 80, 40, [40, 50, 60, 70, 80], 60, 20⟩)
    (by
      have hscen : analyze_topic_performance algebraHist =
          [("Algebra", ⟨5, 300, 80, 40, [40, 50, 60, 70, 80], 60, 20⟩)] := by
        norm_num [analyze_topic_performance, algebraHist, updateTopicStats, topicAccAdd,
          topicAccInit, finishTopic, mean, max_def, min_def]
      rw [hscen]
      exact List.mem_singleton.2 rfl)
  exact ⟨h.2.2.1, h.2.2.2⟩

/-! ### Sorting lemmas for the recommendation engine -/

theorem mem_insertByAvg (x y : String × TopicStats) (l : List (String × TopicStats)) :
    y ∈ insertByAvg x l ↔ y = x ∨ y ∈ l := by
  induction l with
  | nil => simp [insertByAvg]
  | cons z zs ih =>
    simp only [insertByAvg]
    split
    · simp only [List.mem_cons, ih]
      tauto
    · simp only [List.mem_cons]

theorem pairwise_insertByAvg (x : String × TopicStats) (l : List (String × TopicStats))
    (h : l.Pairwise (fun a b => a.2.average_score ≤ b.2.average_score)) :
    (insertByAvg x l).Pairwise (fun a b => a.2.average_score ≤ b.2.average_score) := by
  induction l with
  | nil => simp [insertByAvg]
  | cons z zs ih =>
    have h' := h
    rw [List.pairwise_cons] at h'
    obtain ⟨hz, hzs⟩ := h'
    simp only [insertByAvg]
    split
    · rw [List.pairwise_cons]
      refine ⟨?_, ih hzs⟩
      intro b hb
      rw [mem_insertByAvg] at hb
      rcases hb with rfl | hb
      · assumption
      · exact hz b hb
    · rw [List.pairwise_cons]
      refine ⟨?_, h⟩
      intro b hb
      rcases List.mem_cons.1 hb with rfl | hb
      · exact le_of_not_le (by assumption)
      · exact le_trans (le_of_not_le (by assumption)) (hz b hb)

theorem mem_foldl_insertByAvg (l : List (String × TopicStats)) :
    ∀ (acc : List (String × TopicStats)) (y : String × TopicStats),
      y ∈ l.foldl (fun a x => insertByAvg x a) acc ↔ y ∈ acc ∨ y ∈ l := by
  induction l with
  | nil => intro acc y; simp
  | cons z zs ih =>
    intro acc y
    simp only [List.foldl_cons, ih, mem_insertByAvg, List.mem_cons]
    tauto

theorem pairwise_foldl_insertByAvg (l : List (String × TopicStats)) :
    ∀ acc : List (String × TopicStats),
      acc.Pairwise (fun a b => a.2.average_score ≤ b.2.average_score) →
      (l.foldl (fun a x => insertByAvg x a) acc).Pairwise
        (fun a b => a.2.average_score ≤ b.2.average_score) := by
  induction l with
  | nil => intro acc h; simpa using h
  | cons z zs ih =>
    intro acc h
    simp only [List.foldl_cons]
    exact ih _ (pairwise_insertByAvg z acc h)

theorem mem_sortByAvg (l : List (String × TopicStats)) (y : String × TopicStats) :
    y ∈ sortByAvg l ↔ y ∈ l := by
  simp [sortByAvg, mem_foldl_insertByAvg]

theorem sortByAvg_head_min (l : List (String × TopicStats)) (w : String × TopicStats)
    (rest : List (String × TopicStats)) (h : sortByAvg l = w :: rest) :
    ∀ p ∈ l, w.2.average_score ≤ p.2.average_score := by
  intro p hp
  have hmem : p ∈ sortByAvg l := (mem_sortByAvg l p).2 hp
  have hpw := pairwise_foldl_insertByAvg l [] List.Pairwise.nil
  rw [show l.foldl (fun a x => insertByAvg x a) [] = sortByAvg l from rfl, h] at hpw
  rw [h] at hmem
  rcases List.mem_cons.1 hmem with rfl | hm
  · exact le_refl _
  · exact (List.pairwise_cons.1 hpw).1 p hm

/-! ### Claim C8 -/

/-- Rule 2 as the claim words it: one combined entry listing every topic
whose trend is below -10, or nothing. -/
def specRule2 (tp : List (String × TopicStats)) : List String :=
  let declining := (tp.filter (fun kv => decide (kv.2.trend < -10))).map (fun kv => kv.1)
  if declining.isEmpty then [] else [reviewMsg declining]

/-- Rule 3 as the claim words it: one entry per difficulty with
`average_score < 60`, in the iteration order of the difficulty mapping. -/
def specRule3 (da : List (String × DiffStats)) : List String :=
  (da.filter (fun kv => decide (kv.2.average_score < 60))).map
    (fun kv => considerMsg kv.1 kv.2.success_rate)

/-- Truncating after substituting the generic message agrees with
substituting after truncating, since the generic message is a single entry. -/
theorem take3_generic (A : List String) :
    (if A.isEmpty = true then [genericMsg] else A).take 3 =
      (if A.isEmpty = true then [genericMsg] else A.take 3) := by
  cases A <;> simp

/-- Scenario E topic mapping: one topic averaging 55. -/
def scenTP : List (String × TopicStats) := [("Algebra", ⟨1, 55, 55, 55, [55], 55, 0⟩)]

/-- Scenario E difficulty mapping: one difficulty averaging 50. -/
def scenDA : List (String × DiffStats) := [("easy", ⟨1, 50, [50], 50, 50⟩)]

/-- C8: the recommendation list is the Rule-1 entry (for a topic of minimal
average score, when that score is below 70), then the Rule-2 entry, then the
Rule-3 entries in mapping order, truncated to the first 3, with exactly one
generic encouragement when no rule fires; on Scenario E (topic average 55,
difficulty average 50) it is exactly the two entries with the topic rule
first. -/
theorem recommendations_structure (tp : List (String × TopicStats))
    (da : List (String × DiffStats)) :
    (tp ≠ [] → ∃ w rest, sortByAvg tp = w :: rest ∧ w ∈ tp ∧
      (∀ p ∈ tp, w.2.average_score ≤ p.2.average_score) ∧
      generate_study_recommendations tp da =
        (let l := (if w.2.average_score < 70 then [focusMsg w.1 w.2.average_score] else []) ++
            specRule2 tp ++ specRule3 da
         if l.isEmpty then [genericMsg] else l.take 3)) ∧
    (generate_study_recommendations [] da =
      (let l := specRule3 da
       if l.isEmpty then [genericMsg] else l.take 3)) ∧
    generate_study_recommendations scenTP scenDA =
      [focusMsg "Algebra" 55, considerMsg "easy" 50] := by
  refine ⟨?_, ?_, ?_⟩
  · intro hne
    cases hs : sortByAvg tp with
    | nil =>
      exfalso
      rcases List.exists_mem_of_ne_nil tp hne with ⟨x, hx⟩
      have := (mem_sortByAvg tp x).2 hx
      rw [hs] at this
      exact absurd this (List.not_mem_nil x)
    | cons w rest =>
      refine ⟨w, rest, rfl, (mem_sortByAvg tp w).1 (hs ▸ List.mem_cons_self w rest),
        sortByAvg_head_min tp w rest hs, ?_⟩
      have htp : tp.isEmpty = false := by
        simpa [List.isEmpty_iff] using hne
      simp only [generate_study_recommendations, htp, Bool.false_eq_true, if_false, hs,
        specRule2, specRule3]
      exact take3_generic _
  · simp only [generate_study_recommendations, List.isEmpty_nil, if_pos rfl, specRule3,
      List.nil_append]
    exact take3_generic _
  · norm_num [generate_study_recommendations, scenTP, scenDA, sortByAvg, insertByAvg,
      List.filter]

/-- C8 witness: the structure part of the theorem applied to the Scenario E
mappings. -/
theorem recommendations_structure_witness :
    ∃ w rest, sortByAvg scenTP = w :: rest ∧ w ∈ scenTP ∧
      (∀ p ∈ scenTP, w.2.average_score ≤ p.2.average_score) ∧
      generate_study_recommendations scenTP scenDA =
        (let l := (if w.2.average_score < 70 then [focusMsg w.1 w.2.average_score] else []) ++
            specRule2 scenTP ++ specRule3 scenDA
         if l.isEmpty then [genericMsg] else l.take 3) :=
  (recommendations_structure scenTP scenDA).1 (by simp [scenTP])

/-! ### Claims C9 and C5: scoring loop versus breakdown -/

theorem scoreOne_isSome (q : PyQuestion) (ua : Option String) (t : String)
    (hq : q.correct_answer = some (.str t)) : ∃ a, scoreOne q ua = some a := by
  unfold scoreOne
  rw [hq]
  rcases ua with _ | u
  · exact ⟨0, rfl⟩
  · cases hcond : (u != "" && (PyVal.str t).truthy) with
    | false =>
      refine ⟨0, ?_⟩
      simp [hcond]
    | true =>
      refine ⟨if pyUpper u == pyUpper t then 1 else 0, ?_⟩
      simp [hcond, PyVal.upperAttr]

theorem countCorrect_some (ans : Nat → Option String) :
    ∀ (qs : List PyQuestion) (i : Nat),
      (∀ q ∈ qs, ∃ t, q.correct_answer = some (.str t)) →
      ∃ c, countCorrect ans qs i = some c := by
  intro qs
  induction qs with
  | nil => intro i _; exact ⟨0, rfl⟩
  | cons q qs ih =>
    intro i Hc
    obtain ⟨t, hq⟩ := Hc q (List.mem_cons_self q qs)
    obtain ⟨c, hc⟩ := ih (i + 1) (fun p hp => Hc p (List.mem_cons_of_mem q hp))
    cases hai : ans i with
    | none =>
      refine ⟨0 + c, ?_⟩
      simp only [countCorrect]
      rw [hai, hc]
      rfl
    | some v =>
      obtain ⟨a, ha⟩ := scoreOne_isSome q (ans i) t hq
      refine ⟨a + c, ?_⟩
      simp only [countCorrect]
      rw [ha, hc]

theorem loop_agrees (ans : Nat → Option String)
    (Ha : ∀ i v, ans i = some v → v ≠ "" ∧ v ≠ "Not answered") :
    ∀ (qs : List PyQuestion) (i : Nat),
      (∀ q ∈ qs, ∃ t, q.correct_answer = some (.str t) ∧ t ≠ "") →
      ∃ c bd, countCorrect ans qs i = some c ∧ breakdownFrom ans qs i = some bd ∧
        c = bd.countP (fun e => e.is_correct) := by
  intro qs
  induction qs with
  | nil => intro i _; exact ⟨0, [], rfl, rfl, rfl⟩
  | cons q qs ih =>
    intro i Hc
    obtain ⟨t, hq, ht⟩ := Hc q (List.mem_cons_self q qs)
    obtain ⟨c, bd, hc, hbd, hcnt⟩ := ih (i + 1) (fun p hp => Hc p (List.mem_cons_of_mem q hp))
    cases hai : ans i with
    | none =>
      refine ⟨0 + c,
        ⟨i + 1, q.question.getD (.str ""), q.options.getD [], "Not answered",
          q.correct_answer.getD (.str "Unknown"), false, q.explanation.getD (.str "")⟩ :: bd,
        ?_, ?_, ?_⟩
      · simp only [countCorrect]
        rw [hai, hc]
        rfl
      · simp only [breakdownFrom]
        rw [hai, hbd]
        rfl
      · simp [List.countP_cons, hcnt]
    | some v =>
      obtain ⟨hv1, hv2⟩ := Ha i v hai
      have hbne : (v != "") = true := by simpa [bne_iff_ne] using hv1
      have htb : (t != "") = true := by simpa [bne_iff_ne] using ht
      have hs1 : scoreOne q (ans i) = some (if pyUpper v == pyUpper t then 1 else 0) := by
        rw [hai]
        unfold scoreOne
        rw [hq]
        simp [PyVal.truthy, PyVal.upperAttr, hbne, htb]
      have hb1 : breakdownOne q (ans i) i =
          some ⟨i + 1, q.question.getD (.str ""), q.options.getD [], v, .str t,
            pyUpper v == pyUpper t, q.explanation.getD (.str "")⟩ := by
        rw [hai]
        unfold breakdownOne
        rw [hq]
        simp [PyVal.upperAttr, hv2]
      refine ⟨(if pyUpper v == pyUpper t then 1 else 0) + c,
        ⟨i + 1, q.question.getD (.str ""), q.options.getD [], v, .str t,
          pyUpper v == pyUpper t, q.explanation.getD (.str "")⟩ :: bd, ?_, ?_, ?_⟩
      · simp only [countCorrect]
        rw [hs1, hc]
      · simp only [breakdownFrom]
        rw [hb1, hbd]
      · simp only [List.countP_cons, hcnt]
        cases hb : pyUpper v == pyUpper t <;> simp [hb] <;> omega

/-- A question whose `correct_answer` is the empty string (as the parser can
produce for a bare `Question:` line). -/
def emptyAnsQ : PyQuestion := { correct_answer := some (.str "") }

/-- The answer map `{0: ''}` (an empty-string submitted answer). -/
def emptyStrAnswers : Nat → Option String := fun i => if i = 0 then some "" else none

/-- C9 counterexample: on `questions = [{'correct_answer': ''}]` and
`answers = {0: ''}` the scoring loop skips the falsy empty-string answer
(`score = 0`) while the breakdown compares `''.upper() == ''.upper()` and
marks the entry correct, so the score does not equal the number of
`is_correct` breakdown entries. -/
theorem score_matches_breakdown_cex :
    (calculate_quiz_results [emptyAnsQ] emptyStrAnswers 0 0).score = 0 ∧
    (calculate_quiz_results [emptyAnsQ] emptyStrAnswers 0 0).questions_breakdown.countP
      (fun e => e.is_correct) = 1 := by
  refine ⟨by decide, by decide⟩

/-- C9 amended: the score equals the number of breakdown entries marked
`is_correct` provided every question carries a non-empty string
`correct_answer` and every submitted answer is a non-empty string different
from the sentinel `"Not answered"`; without these provisos the two
computations can disagree (empty-string answers are skipped by the scoring
loop but compared by the breakdown). -/
theorem score_matches_breakdown (qs : List PyQuestion) (ans : Nat → Option String) (s n : ℚ)
    (Hc : ∀ q ∈ qs, ∃ t, q.correct_answer = some (.str t) ∧ t ≠ "")
    (Ha : ∀ i v, ans i = some v → v ≠ "" ∧ v ≠ "Not answered") :
    (calculate_quiz_results qs ans s n).score =
      (calculate_quiz_results qs ans s n).questions_breakdown.countP
        (fun e => e.is_correct) := by
  obtain ⟨c, bd, hc, hbd, hcnt⟩ := loop_agrees ans Ha qs 0 Hc
  have hb : calcBody qs ans s n = some ⟨c, qs.length,
      round2 (if qs.length > 0 then (c : ℚ) / (qs.length : ℚ) * 100 else 0),
      round2 (n - s), bd⟩ := by
    simp only [calcBody, get_questions_breakdown]
    rw [hc, hbd]
  simp only [calculate_quiz_results, hb]
  exact hcnt

/-- Scenario A question: `correct_answer = 'B'`. -/
def qB : PyQuestion := { correct_answer := some (.str "B") }

/-- Scenario A answer map: `{0: 'b'}`. -/
def bAnswers : Nat → Option String := fun i => if i = 0 then some "b" else none

/-- C9 witness: the amended theorem applied to Scenario A's inputs. -/
theorem score_matches_breakdown_witness :
    (calculate_quiz_results [qB] bAnswers 0 0).score =
      (calculate_quiz_results [qB] bAnswers 0 0).questions_breakdown.countP
        (fun e => e.is_correct) :=
  score_matches_breakdown [qB] bAnswers 0 0
    (by
      intro q hq
      simp only [List.mem_singleton] at hq
      subst hq
      exact ⟨"B", rfl, by decide⟩)
    (by
      intro i v h
      unfold bAnswers at h
      split at h
      · injection h with h
        subst h
        exact ⟨by decide, by decide⟩
      · cases h)

/-- The comparison the claim describes for breakdown entry `i`: a present
answer is compared case-insensitively to the correct answer, an absent one
counts as incorrect. -/
def expectedCorrect (ua : Option String) (t : String) : Bool :=
  match ua with
  | some v => pyUpper v == pyUpper t
  | none => false

theorem breakdownOne_spec (q : PyQuestion) (ua : Option String) (i : Nat) (t : String)
    (hq : q.correct_answer = some (.str t))
    (hua : ∀ v, ua = some v → v ≠ "Not answered") :
    ∃ e, breakdownOne q ua i = some e ∧
      e.is_correct = expectedCorrect ua t ∧
      (ua = none → e.user_answer = "Not answered" ∧ e.is_correct = false) := by
  rcases ua with _ | v
  · exact ⟨_, rfl, rfl, fun _ => ⟨rfl, rfl⟩⟩
  · have hv := hua v rfl
    refine ⟨⟨i + 1, q.question.getD (.str ""), q.options.getD [], v, .str t,
      pyUpper v == pyUpper t, q.explanation.getD (.str "")⟩, ?_, rfl, by intro h; cases h⟩
    unfold breakdownOne
    rw [hq]
    simp [PyVal.upperAttr, hv]

theorem breakdownFrom_spec (ans : Nat → Option String)
    (Ha : ∀ i v, ans i = some v → v ≠ "Not answered") :
    ∀ (qs : List PyQuestion) (i0 : Nat),
      (∀ q ∈ qs, ∃ t, q.correct_answer = some (.str t)) →
      ∃ bd, breakdownFrom ans qs i0 = some bd ∧ bd.length = qs.length ∧
        ∀ j p t, qs[j]? = some p → p.correct_answer = some (.str t) →
          ∃ e, bd[j]? = some e ∧
            e.is_correct = expectedCorrect (ans (i0 + j)) t ∧
            (ans (i0 + j) = none → e.user_answer = "Not answered" ∧ e.is_correct = false) := by
  intro qs
  induction qs with
  | nil =>
    intro i0 _
    refine ⟨[], rfl, rfl, ?_⟩
    intro j p t hj
    simp at hj
  | cons q qs ih =>
    intro i0 Hc
    obtain ⟨t0, hq0⟩ := Hc q (List.mem_cons_self q qs)
    obtain ⟨e0, he0, he0c, he0n⟩ :=
      breakdownOne_spec q (ans i0) i0 t0 hq0 (fun v hv => Ha i0 v hv)
    obtain ⟨bd, hbd, hlen, hidx⟩ := ih (i0 + 1) (fun p hp => Hc p (List.mem_cons_of_mem q hp))
    refine ⟨e0 :: bd, ?_, ?_, ?_⟩
    · simp only [breakdownFrom]
      rw [he0, hbd]
    · simp [hlen]
    · intro j p t hj hp
      cases j with
      | zero =>
        simp only [List.getElem?_cons_zero, Option.some.injEq] at hj
        subst hj
        have hts : PyVal.str t0 = PyVal.str t := by
          rw [hq0] at hp
          injection hp
        injection hts with hts
        subst hts
        refine ⟨e0, by simp, ?_, ?_⟩
        · simpa using he0c
        · intro hnone
          exact he0n (by simpa using hnone)
      | succ j =>
        simp only [List.getElem?_cons_succ] at hj
        obtain ⟨e, he, hec, hen⟩ := hidx j p t hj hp
        have harith : i0 + 1 + j = i0 + (j + 1) := by omega
        refine ⟨e, by simpa using he, ?_, ?_⟩
        · rw [← harith]
          exact hec
        · intro hnone
          apply hen
          rw [harith]
          exact hnone

/-- Scenario for the C5 counterexample: `correct_answer` equals the sentinel
text in lowercase. -/
def sentinelQ : PyQuestion := { correct_answer := some (.str "not answered") }

/-- The answer map `{0: 'Not answered'}`: a submitted answer that collides
with the breakdown's sentinel. -/
def sentinelAnswers : Nat → Option String := fun i => if i = 0 then some "Not answered" else none

/-- C5 counterexample: the submitted answer `'Not answered'` is
case-insensitively equal to the correct answer `'not answered'`, yet the
breakdown treats it as unanswered and marks `is_correct = false`, so the
grader does not compare every present answer case-insensitively. -/
theorem grader_case_insensitive_cex :
    pyUpper "Not answered" = pyUpper "not answered" ∧
    (calculate_quiz_results [sentinelQ] sentinelAnswers 0 0).questions_breakdown.map
      (fun e => e.is_correct) = [false] :=
  ⟨by decide, by decide⟩

/-- C5 amended: provided every question's `correct_answer` is a string and
every submitted answer differs from the literal sentinel `"Not answered"`
(which the grader treats as absent), the breakdown has one entry per question
and entry `i` has `is_correct` true exactly when the submitted answer at `i`
is present and case-insensitively equal to `correct_answer`; an absent answer
yields `user_answer = "Not answered"` and `is_correct = false`, and no
exception reaches the caller (the function is total). -/
theorem grader_case_insensitive (qs : List PyQuestion) (ans : Nat → Option String) (s n : ℚ)
    (Hc : ∀ q ∈ qs, ∃ t, q.correct_answer = some (.str t))
    (Ha : ∀ i v, ans i = some v → v ≠ "Not answered") :
    (calculate_quiz_results qs ans s n).questions_breakdown.length = qs.length ∧
    ∀ i q t, qs[i]? = some q → q.correct_answer = some (.str t) →
      ∃ e, (calculate_quiz_results qs ans s n).questions_breakdown[i]? = some e ∧
        e.is_correct = expectedCorrect (ans i) t ∧
        (ans i = none → e.user_answer = "Not answered" ∧ e.is_correct = false) := by
  obtain ⟨c, hc⟩ := countCorrect_some ans qs 0 Hc
  obtain ⟨bd, hbd, hlen, hidx⟩ := breakdownFrom_spec ans Ha qs 0 Hc
  have hb : calcBody qs ans s n = some ⟨c, qs.length,
      round2 (if qs.length > 0 then (c : ℚ) / (qs.length : ℚ) * 100 else 0),
      round2 (n - s), bd⟩ := by
    simp only [calcBody, get_questions_breakdown]
    rw [hc, hbd]
  simp only [calculate_quiz_results, hb]
  refine ⟨hlen, ?_⟩
  intro i q t hq hqc
  simpa using hidx i q t hq hqc

/-- C5 witness: the amended theorem applied to Scenario A
(`correct_answer 'B'`, answer `'b'`). -/
theorem grader_case_insensitive_witness :
    (calculate_quiz_results [qB] bAnswers 0 0).questions_breakdown.length = [qB].length ∧
    ∀ i q t, [qB][i]? = some q → q.correct_answer = some (.str t) →
      ∃ e, (calculate_quiz_results [qB] bAnswers 0 0).questions_breakdown[i]? = some e ∧
        e.is_correct = expectedCorrect (bAnswers i) t ∧
        (bAnswers i = none → e.user_answer = "Not answered" ∧ e.is_correct = false) :=
  grader_case_insensitive [qB] bAnswers 0 0
    (by
      intro q hq
      simp only [List.mem_singleton] at hq
      subst hq
      exact ⟨"B", rfl⟩)
    (by
      intro i v h
      unfold bAnswers at h
      split at h
      · injection h with h
        subst h
        decide
      · cases h)
